import Mathlib

/-!
Verification of the financial scenario model and the LCA wizard state
machine of src/checkpoint_cl1.py.

The Python source is a Streamlit app; the computational core consists of
closed-form arithmetic over the selected initiative set (Financial
Analysis tab, lines 1498-1682; Operations Decision Tool tab, lines
1291-1409) and a five-step wizard whose current step lives in
st.session_state.lca_step (lines 103-108 and 391-944).

Python floats are modelled as rationals (all the constants involved are
exact decimals), Python lists as Lean lists, the for-loops that
accumulate a value or append to a list as List.foldl, and Python's
float('inf') sentinel as the top element of WithTop.
-/

namespace Checkpoint

/-- The four initiatives of the Financial Analysis tab (line 1431-1456):
one checkbox per initiative. -/
structure FinSelection where
  renewable : Bool
  datacenter : Bool
  cloud : Bool
  ev : Bool

/-- Line 1504:
`total_reduction = sum(init['reduction'] for init in selected_initiatives.values())`
over the Financial tab catalog: reductions 35000, 18000,
12000, 8000 tons (lines 1433, 1439, 1445, 1451). -/
def fin_total_reduction (sel : FinSelection) : ℚ :=
  (if sel.renewable then 35000 else 0) + (if sel.datacenter then 18000 else 0)
    + (if sel.cloud then 12000 else 0) + (if sel.ev then 8000 else 0)

/-- Lines 1507-1509:
`carbon_cost_savings = total_reduction * carbon_price`;
`energy_cost_savings = total_reduction * 0.4 * electricity_price / 1000`;
`total_annual_savings = carbon_cost_savings + energy_cost_savings`. -/
def total_annual_savings (total_reduction carbon_price electricity_price : ℚ) : ℚ :=
  total_reduction * carbon_price + total_reduction * 0.4 * electricity_price / 1000

/-- Line 1317 (Operations Decision Tool tab):
`annual_savings = (total_reduction * 100) / 1000000` (result in millions of EUR). -/
def annual_savings_ops (total_reduction : ℚ) : ℚ :=
  total_reduction * 100 / 1000000

/-- Line 1512 (Financial Analysis tab):
`simple_payback = total_investment / total_annual_savings if total_annual_savings > 0 else float('inf')`.
The float('inf') sentinel is modelled as the top element of `WithTop`. -/
def simple_payback (total_investment tas : ℚ) : WithTop ℚ :=
  if 0 < tas then ((total_investment / tas : ℚ) : WithTop ℚ) else ⊤

/-- Line 1324 (Operations Decision Tool tab):
`simple_payback = total_cost / (annual_savings * 1000000) if annual_savings > 0 else 0`
(here `annual_savings` is in millions of EUR, line 1317). -/
def ops_simple_payback (total_cost annual_savings : ℚ) : ℚ :=
  if 0 < annual_savings then total_cost / (annual_savings * 1000000) else 0

/-- Lines 1515-1517:
`npv = -total_investment`;
`for year in range(1, analysis_period + 1): npv += total_annual_savings / ((1 + discount_rate/100) ** year)`.
The loop over `range(1, analysis_period + 1)` is a foldl over
`List.range analysis_period` with the loop variable shifted by one. -/
def npv (total_investment tas discount_rate : ℚ) (analysis_period : ℕ) : ℚ :=
  (List.range analysis_period).foldl
    (fun acc year => acc + tas / (1 + discount_rate / 100) ^ (year + 1))
    (-total_investment)

/-- Lines 1602-1607:
`cumulative_cashflow = [-total_investment]`;
`for year in range(1, analysis_period + 1):`
`    discounted_savings = total_annual_savings / ((1 + discount_rate/100) ** year)`;
`    cumulative_cashflow.append(cumulative_cashflow[-1] + discounted_savings)`.
Python's `lst[-1]` on the (always non-empty) accumulator is modelled as
`List.getLastD _ 0`. -/
def cumulative_cashflow (total_investment tas discount_rate : ℚ) (analysis_period : ℕ) : List ℚ :=
  (List.range analysis_period).foldl
    (fun acc year => acc ++ [acc.getLastD 0 + tas / (1 + discount_rate / 100) ^ (year + 1)])
    [-total_investment]

/-- Line 1626:
`breakeven_year = next((i for i, cf in enumerate(cumulative_cashflow) if cf > 0), None)`:
the first index whose entry is strictly positive, if any. -/
def breakeven_year : List ℚ → Option ℕ
  | [] => none
  | cf :: rest => if 0 < cf then some 0 else (breakeven_year rest).map (· + 1)

/-- Lines 1642-1650 (carbon price sensitivity sweep), parameterized by the
grid (`carbon_prices = [50, 75, 100, 125, 150]` in the source):
`npvs = []`;
`for cp in carbon_prices:`
`    annual_savings = total_reduction * cp + energy_cost_savings`;
`    npv_temp = -total_investment`;
`    for year in range(1, analysis_period + 1): npv_temp += annual_savings / ((1 + discount_rate/100) ** year)`;
`    npvs.append(npv_temp / 1000000)`.
The inner loop is exactly `npv`. -/
def carbon_sweep (carbon_prices : List ℚ)
    (total_reduction energy_cost_savings total_investment discount_rate : ℚ)
    (analysis_period : ℕ) : List ℚ :=
  carbon_prices.foldl
    (fun npvs cp =>
      npvs ++ [npv total_investment (total_reduction * cp + energy_cost_savings)
                  discount_rate analysis_period / 1000000])
    []

/-- Initial wizard step: `st.session_state.lca_step = 1` (line 106). -/
def lca_step_init : ℕ := 1

/-- The successor steps the LCA Calculator tab offers from each step, read
off the `st.session_state.lca_step = _` assignments attached to the
buttons of each step's branch: step 1 offers Next (line 464); steps 2-4
offer Previous and Next (lines 612/617, 701/707, 811/817); step 5 offers
Previous and Start New Assessment, the latter resetting to step 1
(lines 937, 942). -/
def lca_transitions : ℕ → List ℕ
  | 1 => [2]
  | 2 => [1, 3]
  | 3 => [2, 4]
  | 4 => [3, 5]
  | 5 => [4, 1]
  | _ => []

/-- Steps reachable from the initial step by the offered transitions. -/
inductive LcaReachable : ℕ → Prop
  | init : LcaReachable lca_step_init
  | step (s t : ℕ) : LcaReachable s → t ∈ lca_transitions s → LcaReachable t


lemma npv_eq_sum (c s r : ℚ) (H : ℕ) :
    npv c s r H = -c + ∑ y ∈ Finset.Icc 1 H, s / (1 + r / 100) ^ y := by
  induction H with
  | zero => simp [npv]
  | succ n ih =>
    have h1 : npv c s r (n + 1) = npv c s r n + s / (1 + r / 100) ^ (n + 1) := by
      simp [npv, List.range_succ]
    rw [h1, ih, Finset.sum_Icc_succ_top (by omega : 1 ≤ n + 1)]
    ring

lemma cumulative_eq_map (c s r : ℚ) (H : ℕ) :
    cumulative_cashflow c s r H
      = (List.range (H + 1)).map
          (fun n => -c + ∑ y ∈ Finset.Icc 1 n, s / (1 + r / 100) ^ y) := by
  induction H with
  | zero =>
    have he : Finset.Icc 1 0 = (∅ : Finset ℕ) := Finset.Icc_eq_empty (by omega)
    simp [cumulative_cashflow, he, List.range_succ]
  | succ n ih =>
    have h1 : cumulative_cashflow c s r (n + 1)
        = cumulative_cashflow c s r n
          ++ [(cumulative_cashflow c s r n).getLastD 0 + s / (1 + r / 100) ^ (n + 1)] := by
      simp [cumulative_cashflow, List.range_succ]
    have h2 : (cumulative_cashflow c s r n).getLastD 0
        = -c + ∑ y ∈ Finset.Icc 1 n, s / (1 + r / 100) ^ y := by
      rw [ih, List.range_succ, List.map_append]
      simp
    rw [h1, h2, ih, List.range_succ (n + 1), List.map_append]
    congr 1
    simp only [List.map_cons, List.map_nil, List.cons.injEq, and_true]
    rw [Finset.sum_Icc_succ_top (by omega : 1 ≤ n + 1)]
    ring

lemma cumulative_length (c s r : ℚ) (H : ℕ) :
    (cumulative_cashflow c s r H).length = H + 1 := by
  rw [cumulative_eq_map]; simp

lemma cumulative_getD (c s r : ℚ) {H n : ℕ} (hn : n ≤ H) :
    (cumulative_cashflow c s r H).getD n 0
      = -c + ∑ y ∈ Finset.Icc 1 n, s / (1 + r / 100) ^ y := by
  rw [cumulative_eq_map, List.getD_eq_getElem?_getD, List.getElem?_map,
    List.getElem?_range (by omega : n < H + 1)]
  rfl

lemma cumulative_getLast? (c s r : ℚ) (H : ℕ) :
    (cumulative_cashflow c s r H).getLast? = some (npv c s r H) := by
  rw [cumulative_eq_map, List.range_succ, List.map_append]
  simp only [List.map_cons, List.map_nil]
  rw [List.getLast?_concat, npv_eq_sum]

lemma breakeven_some_iff (l : List ℚ) (i : ℕ) :
    breakeven_year l = some i ↔ 0 < l.getD i 0 ∧ ∀ j < i, l.getD j 0 ≤ 0 := by
  induction l generalizing i with
  | nil =>
    simp [breakeven_year]
  | cons cf rest ih =>
    by_cases hcf : 0 < cf
    · cases i with
      | zero => simp [breakeven_year, hcf]
      | succ m =>
        simp only [breakeven_year, if_pos hcf]
        constructor
        · intro h; exact absurd h (by simp)
        · rintro ⟨-, hall⟩
          exact absurd (hall 0 (by omega)) (by simpa using hcf)
    · cases i with
      | zero =>
        simp only [breakeven_year, if_neg hcf, Option.map_eq_some']
        constructor
        · rintro ⟨a, -, h⟩; omega
        · rintro ⟨hpos, -⟩
          exact absurd (by simpa using hpos) hcf
      | succ m =>
        simp only [breakeven_year, if_neg hcf, Option.map_eq_some']
        constructor
        · rintro ⟨a, ha, hEq⟩
          have ham : a = m := by omega
          subst ham
          refine ⟨by simpa using ((ih a).1 ha).1, ?_⟩
          intro j hj
          cases j with
          | zero => simpa using le_of_not_lt hcf
          | succ k =>
            simpa using ((ih a).1 ha).2 k (by omega)
        · rintro ⟨hpos, hall⟩
          refine ⟨m, (ih m).2 ⟨by simpa using hpos, ?_⟩, rfl⟩
          intro k hk
          have := hall (k + 1) (by omega)
          simpa using this

lemma breakeven_none_iff (l : List ℚ) :
    breakeven_year l = none ↔ ∀ j, l.getD j 0 ≤ 0 := by
  induction l with
  | nil => simp [breakeven_year]
  | cons cf rest ih =>
    by_cases hcf : 0 < cf
    · simp only [breakeven_year, if_pos hcf]
      constructor
      · intro h; exact absurd h (by simp)
      · intro hall; exact absurd (hall 0) (by simpa using hcf)
    · simp only [breakeven_year, if_neg hcf, Option.map_eq_none', ih]
      constructor
      · intro hall j
        cases j with
        | zero => simpa using le_of_not_lt hcf
        | succ k => simpa using hall k
      · intro hall j
        simpa using hall (j + 1)

lemma carbon_sweep_eq_map (grid : List ℚ) (R ecs inv r : ℚ) (H : ℕ) :
    carbon_sweep grid R ecs inv r H
      = grid.map (fun cp => npv inv (R * cp + ecs) r H / 1000000) := by
  suffices h : ∀ acc : List ℚ,
      grid.foldl
        (fun npvs cp => npvs ++ [npv inv (R * cp + ecs) r H / 1000000]) acc
        = acc ++ grid.map (fun cp => npv inv (R * cp + ecs) r H / 1000000) by
    simpa using h []
  induction grid with
  | nil => simp
  | cons cp rest ih =>
    intro acc
    simp [List.foldl_cons, ih]

/-- Claim C1 counterexample: at total_cost = 0 and annual_savings = 0 the
Financial tab's simple_payback returns the infinity sentinel, not 0 as the
claim states; and at total_cost = 50000, annual_savings = 0 the Operations
tab's simple_payback returns 0, not infinity. -/
theorem C1_counterexample :
    simple_payback 0 0 = ⊤ ∧ (⊤ : WithTop ℚ) ≠ ((0 : ℚ) : WithTop ℚ)
      ∧ ops_simple_payback 50000 0 = 0 := by
  refine ⟨by norm_num [simple_payback], by simp, by norm_num [ops_simple_payback]⟩

/-- Claim C1 (amended): for non-negative inputs, the Financial tab's
simple_payback returns total_cost / annual_savings when annual_savings > 0
(hence 0 when total_cost = 0 and annual_savings > 0) and the positive
infinity sentinel whenever annual_savings = 0, including when
total_cost = 0; the Operations tab's simple_payback instead returns 0
whenever its (million-EUR scaled) annual savings are 0, and
total_cost / (annual_savings * 1000000) otherwise. -/
theorem C1_simple_payback_contract (c s : ℚ) (hc : 0 ≤ c) (hs : 0 ≤ s) :
    (0 < s → simple_payback c s = ((c / s : ℚ) : WithTop ℚ)
        ∧ ops_simple_payback c s = c / (s * 1000000))
    ∧ (s = 0 → simple_payback c s = ⊤ ∧ ops_simple_payback c s = 0)
    ∧ (c = 0 → 0 < s → simple_payback c s = ((0 : ℚ) : WithTop ℚ)) := by
  refine ⟨fun h => ⟨?_, ?_⟩, fun h => ⟨?_, ?_⟩, fun hc0 h => ?_⟩
  · simp [simple_payback, h]
  · simp [ops_simple_payback, h]
  · simp [simple_payback, h]
  · simp [ops_simple_payback, h]
  · simp [simple_payback, h, hc0]

/-- Witness for C1_simple_payback_contract at total_cost = 6,
annual_savings = 3. -/
theorem C1_witness :
    (0 < (3:ℚ) → simple_payback 6 3 = (((6:ℚ) / 3 : ℚ) : WithTop ℚ)
        ∧ ops_simple_payback 6 3 = 6 / (3 * 1000000))
    ∧ ((3:ℚ) = 0 → simple_payback 6 3 = ⊤ ∧ ops_simple_payback 6 3 = 0)
    ∧ ((6:ℚ) = 0 → 0 < (3:ℚ) → simple_payback 6 3 = ((0 : ℚ) : WithTop ℚ)) :=
  C1_simple_payback_contract 6 3 (by norm_num) (by norm_num)

/-- Claim C2 counterexample: in the degenerate zero-investment case the
break-even year is 1, not 0 as the claim states (the year-0 entry is 0,
which is not strictly positive). -/
theorem C2_counterexample :
    breakeven_year (cumulative_cashflow 0 100 0 1) = some 1
      ∧ breakeven_year (cumulative_cashflow 0 100 0 1) ≠ some 0 := by
  constructor <;> norm_num [cumulative_cashflow, breakeven_year, List.range_succ]

/-- Claim C2 (amended): breakeven_year on the cumulative cash-flow series
returns the smallest year index with strictly positive cumulative cash
flow, and none when no such year exists; the year-0 element is never the
break-even year for any non-negative total_cost — including the
degenerate total_cost = 0 case, where break-even is year 1 when
annual_savings > 0 (the year-0 entry is 0, which is not strictly
positive), not year 0. -/
theorem C2_breakeven_spec (c s r : ℚ) (H : ℕ) (hc : 0 ≤ c) (hs : 0 ≤ s)
    (hr : -100 < r) (hH : 1 ≤ H) :
    (∀ i, breakeven_year (cumulative_cashflow c s r H) = some i ↔
        0 < (cumulative_cashflow c s r H).getD i 0
          ∧ ∀ j < i, (cumulative_cashflow c s r H).getD j 0 ≤ 0)
    ∧ (breakeven_year (cumulative_cashflow c s r H) = none ↔
        ∀ j, (cumulative_cashflow c s r H).getD j 0 ≤ 0)
    ∧ breakeven_year (cumulative_cashflow c s r H) ≠ some 0
    ∧ (c = 0 → 0 < s → breakeven_year (cumulative_cashflow c s r H) = some 1) := by
  have he : Finset.Icc 1 0 = (∅ : Finset ℕ) := Finset.Icc_eq_empty (by omega)
  have hget0 : (cumulative_cashflow c s r H).getD 0 0 = -c := by
    rw [cumulative_getD c s r (by omega : 0 ≤ H)]
    simp [he]
  refine ⟨fun i => breakeven_some_iff _ i, breakeven_none_iff _, ?_, fun hc0 hs0 => ?_⟩
  · intro h
    have h0 := (breakeven_some_iff _ 0).1 h
    rw [hget0] at h0
    linarith [h0.1]
  · have hb : (0:ℚ) < 1 + r / 100 := by linarith
    apply (breakeven_some_iff _ 1).2
    constructor
    · rw [cumulative_getD c s r hH, Finset.Icc_self, Finset.sum_singleton, hc0]
      have : (0:ℚ) < s / (1 + r / 100) ^ 1 := div_pos hs0 (by positivity)
      linarith
    · intro j hj
      have hj0 : j = 0 := by omega
      rw [hj0, hget0, hc0]
      norm_num

/-- Witness for C2_breakeven_spec at total_cost = 0, annual_savings = 100,
discount rate 0, horizon 1. -/
theorem C2_witness :
    (∀ i, breakeven_year (cumulative_cashflow 0 100 0 1) = some i ↔
        0 < (cumulative_cashflow 0 100 0 1).getD i 0
          ∧ ∀ j < i, (cumulative_cashflow 0 100 0 1).getD j 0 ≤ 0)
    ∧ (breakeven_year (cumulative_cashflow 0 100 0 1) = none ↔
        ∀ j, (cumulative_cashflow 0 100 0 1).getD j 0 ≤ 0)
    ∧ breakeven_year (cumulative_cashflow 0 100 0 1) ≠ some 0
    ∧ ((0:ℚ) = 0 → (0:ℚ) < 100 → breakeven_year (cumulative_cashflow 0 100 0 1) = some 1) :=
  C2_breakeven_spec 0 100 0 1 (by norm_num) (by norm_num) (by norm_num) (by norm_num)

/-- Claim C3: scaled to the same units (the Operations tool stores annual
savings in millions of EUR), the Operations Decision Tool's annual
savings formula (line 1317, hardcoded 100 EUR/ton and no electricity
credit) agrees with the Financial Analysis tab's formula (lines
1507-1509) on every selection of the Financial tab's initiative set if
and only if carbon_price = 100 and electricity_price = 0. The prices
range over the integer widget domain 0..500 set by the number_input
bounds (lines 1461-1476). -/
theorem C3_savings_agreement_iff (cp ep : ℕ) (hcp : cp ≤ 500) (hep : ep ≤ 500) :
    (∀ sel : FinSelection,
        annual_savings_ops (fin_total_reduction sel) * 1000000
          = total_annual_savings (fin_total_reduction sel) cp ep)
      ↔ (cp = 100 ∧ ep = 0) := by
  constructor
  · intro h
    have h1 := h ⟨true, false, false, false⟩
    simp only [fin_total_reduction, if_pos, if_neg, Bool.false_eq_true, if_false, if_true,
      annual_savings_ops, total_annual_savings] at h1
    norm_num at h1
    field_simp at h1
    have h2 : (3500000 * 1000 : ℕ) = 35000 * cp * 1000 + 14000 * ep := by exact_mod_cast h1
    omega
  · rintro ⟨rfl, rfl⟩ sel
    unfold annual_savings_ops total_annual_savings
    push_cast
    ring

/-- Witness for C3_savings_agreement_iff: at carbon_price = 100 and
electricity_price = 0 the two formulas agree on the selection
{Renewable Energy, Data Center Efficiency, EV Fleet}. -/
theorem C3_witness :
    annual_savings_ops (fin_total_reduction ⟨true, true, false, true⟩) * 1000000
      = total_annual_savings (fin_total_reduction ⟨true, true, false, true⟩) 100 0 :=
  ((C3_savings_agreement_iff 100 0 (by norm_num) (by norm_num)).2 ⟨rfl, rfl⟩)
    ⟨true, true, false, true⟩

/-- Claim C4: the Financial tab's annual savings equal
total_reduction * carbon_price + total_reduction * 0.4 * electricity_price / 1000
(energy fraction fixed at 0.4); they are non-negative for non-negative
inputs, and zero exactly when total_reduction = 0 or both prices are 0. -/
theorem C4_annual_savings_spec (R cp ep : ℚ) (hR : 0 ≤ R) (hcp : 0 ≤ cp) (hep : 0 ≤ ep) :
    total_annual_savings R cp ep = R * cp + R * 0.4 * ep / 1000
    ∧ 0 ≤ total_annual_savings R cp ep
    ∧ (total_annual_savings R cp ep = 0 ↔ R = 0 ∨ (cp = 0 ∧ ep = 0)) := by
  have hterm1 : 0 ≤ R * cp := mul_nonneg hR hcp
  have hterm2 : 0 ≤ R * 0.4 * ep / 1000 := by
    apply div_nonneg _ (by norm_num)
    exact mul_nonneg (mul_nonneg hR (by norm_num)) hep
  refine ⟨rfl, add_nonneg hterm1 hterm2, ?_, ?_⟩
  · intro h
    unfold total_annual_savings at h
    have hz1 : R * cp = 0 := by linarith
    have hz2 : R * 0.4 * ep / 1000 = 0 := by linarith
    rcases mul_eq_zero.1 hz1 with hR0 | hcp0
    · exact Or.inl hR0
    · rcases mul_eq_zero.1 ((div_eq_zero_iff.1 hz2).resolve_right (by norm_num)) with h4 | hep0
      · rcases mul_eq_zero.1 h4 with hR0 | h04
        · exact Or.inl hR0
        · exact absurd h04 (by norm_num)
      · exact Or.inr ⟨hcp0, hep0⟩
  · rintro (rfl | ⟨rfl, rfl⟩) <;> simp [total_annual_savings]

/-- Witness for C4_annual_savings_spec at total_reduction = 2,
carbon_price = 3, electricity_price = 5. -/
theorem C4_witness :
    total_annual_savings 2 3 5 = 2 * 3 + 2 * 0.4 * 5 / 1000
    ∧ 0 ≤ total_annual_savings 2 3 5
    ∧ (total_annual_savings 2 3 5 = 0 ↔ (2:ℚ) = 0 ∨ ((3:ℚ) = 0 ∧ (5:ℚ) = 0)) :=
  C4_annual_savings_spec 2 3 5 (by norm_num) (by norm_num) (by norm_num)


/-- Claim C5: npv equals -total_cost plus the sum over years 1..horizon of
annual_savings discounted by (1 + rate/100)^year, and at discount rate 0
it equals -total_cost + horizon * annual_savings (no division by zero
occurs: the rate domain is strictly above -100). -/
theorem C5_npv_formula (c s r : ℚ) (H : ℕ) (hr : -100 < r) (hH : 1 ≤ H) :
    npv c s r H = -c + ∑ y ∈ Finset.Icc 1 H, s / (1 + r / 100) ^ y
    ∧ npv c s 0 H = -c + H * s := by
  refine ⟨npv_eq_sum c s r H, ?_⟩
  rw [npv_eq_sum]
  have hconst : ∀ y ∈ Finset.Icc 1 H, s / (1 + (0:ℚ) / 100) ^ y = s := by
    intro y hy
    norm_num
  rw [Finset.sum_congr rfl hconst, Finset.sum_const, Nat.card_Icc]
  simp [nsmul_eq_mul]

/-- Witness for C5_npv_formula at total_cost = 10, annual_savings = 2,
discount rate 5, horizon 2. -/
theorem C5_witness :
    npv 10 2 5 2 = -10 + ∑ y ∈ Finset.Icc 1 2, 2 / (1 + (5:ℚ) / 100) ^ y
    ∧ npv 10 2 0 2 = -10 + (2:ℕ) * 2 :=
  C5_npv_formula 10 2 5 2 (by norm_num) (by norm_num)

/-- Claim C6: for valid inputs the last element of the cumulative
cash-flow series equals the npv at the same parameters. -/
theorem C6_npv_eq_last (c s r : ℚ) (H : ℕ) (hc : 0 ≤ c) (hs : 0 ≤ s)
    (hr : -100 < r) (hH : 1 ≤ H) :
    (cumulative_cashflow c s r H).getLast? = some (npv c s r H) :=
  cumulative_getLast? c s r H

/-- Witness for C6_npv_eq_last at total_cost = 100, annual_savings = 10,
discount rate 0, horizon 3. -/
theorem C6_witness :
    (cumulative_cashflow 100 10 0 3).getLast? = some (npv 100 10 0 3) :=
  C6_npv_eq_last 100 10 0 3 (by norm_num) (by norm_num) (by norm_num) (by norm_num)

/-- Claim C7 counterexample: the sweep stores NPVs scaled to millions of
EUR (line 1650 divides by 1000000), so at the claimed parameters it
yields [0, 0.05, 0.1], not [0, 50000, 100000]. -/
theorem C7_counterexample :
    carbon_sweep [50, 100, 150] 1000 0 50000 0 1 ≠ [0, 50000, 100000] := by
  norm_num [carbon_sweep, npv, List.range_succ]

/-- Claim C7 (amended): the carbon-price sensitivity sweep returns NPVs in
the order of the supplied grid (a pointwise map of the grid, not sorted
by result); with grid [50, 100, 150], total_reduction = 1000, energy
cost savings 0, total_cost = 50000, discount rate 0 and horizon 1 it
yields the NPVs 0, 50000 and 100000 EUR scaled to millions as stored by
the code, i.e. [0, 1/20, 1/10], in that exact order. -/
theorem C7_carbon_sweep_spec :
    carbon_sweep [50, 100, 150] 1000 0 50000 0 1 = [0, 1/20, 1/10]
    ∧ ∀ (grid : List ℚ) (R ecs inv r : ℚ) (H : ℕ),
        carbon_sweep grid R ecs inv r H
          = grid.map (fun cp => npv inv (R * cp + ecs) r H / 1000000) := by
  constructor
  · norm_num [carbon_sweep, npv, List.range_succ]
  · exact carbon_sweep_eq_map

/-- Claim C8: npv is monotonically non-increasing in the discount rate for
fixed cost, strictly positive savings and positive horizon, over the
valid rate domain (strictly above -100). -/
theorem C8_npv_antitone_in_rate (c s r1 r2 : ℚ) (H : ℕ)
    (hs : 0 < s) (hH : 1 ≤ H) (h1 : -100 < r1) (h12 : r1 ≤ r2) :
    npv c s r2 H ≤ npv c s r1 H := by
  rw [npv_eq_sum, npv_eq_sum]
  have hb1 : (0:ℚ) < 1 + r1 / 100 := by linarith
  apply add_le_add_left
  apply Finset.sum_le_sum
  intro y hy
  have hpow1 : (0:ℚ) < (1 + r1 / 100) ^ y := pow_pos hb1 y
  have hple : (1 + r1 / 100) ^ y ≤ (1 + r2 / 100) ^ y :=
    pow_le_pow_left₀ hb1.le (by linarith) y
  exact div_le_div_of_nonneg_left hs.le hpow1 hple

/-- Witness for C8_npv_antitone_in_rate at cost 100, savings 10,
rates 0 and 5, horizon 2. -/
theorem C8_witness : npv 100 10 5 2 ≤ npv 100 10 0 2 :=
  C8_npv_antitone_in_rate 100 10 0 5 2 (by norm_num) (by norm_num) (by norm_num) (by norm_num)

/-- Claim C9: the cumulative cash-flow series has horizon + 1 entries for
years 0..horizon in ascending order, its first entry is -total_cost, and
entry n (1 <= n <= horizon) is entry n-1 plus the year-n discounted
savings. -/
theorem C9_cashflow_series_spec (c s r : ℚ) (H : ℕ) (hr : -100 < r) (hH : 1 ≤ H) :
    (cumulative_cashflow c s r H).length = H + 1
    ∧ (cumulative_cashflow c s r H).getD 0 0 = -c
    ∧ ∀ n, 1 ≤ n → n ≤ H →
        (cumulative_cashflow c s r H).getD n 0
          = (cumulative_cashflow c s r H).getD (n - 1) 0 + s / (1 + r / 100) ^ n := by
  have he : Finset.Icc 1 0 = (∅ : Finset ℕ) := Finset.Icc_eq_empty (by omega)
  refine ⟨cumulative_length c s r H, ?_, ?_⟩
  · rw [cumulative_getD c s r (by omega : 0 ≤ H)]
    simp [he]
  · intro n h1 h2
    obtain ⟨m, rfl⟩ : ∃ m, n = m + 1 := ⟨n - 1, by omega⟩
    simp only [Nat.add_sub_cancel]
    rw [cumulative_getD c s r h2, cumulative_getD c s r (by omega : m ≤ H),
      Finset.sum_Icc_succ_top (by omega : 1 ≤ m + 1)]
    ring

/-- Witness for C9_cashflow_series_spec at cost 100, savings 10,
discount rate 0, horizon 2. -/
theorem C9_witness :
    (cumulative_cashflow 100 10 0 2).length = 2 + 1
    ∧ (cumulative_cashflow 100 10 0 2).getD 0 0 = -100
    ∧ ∀ n, 1 ≤ n → n ≤ 2 →
        (cumulative_cashflow 100 10 0 2).getD n 0
          = (cumulative_cashflow 100 10 0 2).getD (n - 1) 0 + 10 / (1 + (0:ℚ) / 100) ^ n :=
  C9_cashflow_series_spec 100 10 0 2 (by norm_num) (by norm_num)

/-- Claim C10: every step the LCA wizard can reach from the initial step 1
through the transitions it offers (forward steps, back steps, and the
start-over reset from the Results step back to step 1) lies in [1, 5]. -/
theorem C10_lca_step_in_range (s : ℕ) (h : LcaReachable s) : 1 ≤ s ∧ s ≤ 5 := by
  induction h with
  | init => exact ⟨le_refl 1, by norm_num [lca_step_init]⟩
  | step s t hs ht ih =>
    obtain ⟨ih1, ih2⟩ := ih
    interval_cases s <;> simp [lca_transitions] at ht <;> omega

/-- Witness for C10_lca_step_in_range: step 2, reached by the forward
transition from the initial step. -/
theorem C10_witness : 1 ≤ 2 ∧ 2 ≤ 5 :=
  C10_lca_step_in_range 2
    (LcaReachable.step 1 2 LcaReachable.init (by simp [lca_transitions]))

end Checkpoint
